import Mathlib

/-!
Verification of the PhyLab single-file canvas application (src/assets/app.js).

Each section embeds one component of the source, keeping the source names
where Lean allows it: the xorshift32 random generator (class RNG), the 2D
vector type (class Vec2), the Torque-Tycoon lever game, the frame scheduler
(class CanvasRunner together with the global clock variable lastTs), the
tab/subtab visibility controller (onPanelActivated / onSubpanelActivated),
the Mirror-Madness reflection step, the wave-interference intensity field and
the Space-Glider game.  Machine floats are modelled as rationals where the
source only uses field arithmetic, and as reals where the source calls
Math.sqrt, Math.cos, Math.sin or Math.exp.
-/

/-! ### RNG (class RNG, app.js lines 18-31)

The source keeps a 32-bit state `_s`.  `next()` applies one xorshift32 step
(`x ^= x << 13; x ^= x >>> 17; x ^= x << 5`), stores the step truncated by
`>>> 0`, and returns `this._s / 0xffffffff`.  JavaScript 32-bit shifts
truncate modulo 2^32, so on natural numbers below 2^32 the step is the
function below; the trailing `% 2^32` models the `>>> 0` store. -/

def rngStep (s : Nat) : Nat :=
  let x1 := s ^^^ ((s <<< 13) % 2 ^ 32)
  let x2 := x1 ^^^ (x1 >>> 17)
  let x3 := x2 ^^^ ((x2 <<< 5) % 2 ^ 32)
  x3 % 2 ^ 32

/-- The float returned by one call of `next()` on state `s`: the new state
divided by `0xffffffff = 4294967295`. -/
def rngValue (s : Nat) : ℚ := (rngStep s : ℚ) / 4294967295

/-- State after `n` calls of `next()` starting from seed `s` (the sequence of
produced values is `rngValue (rngIter s 0), rngValue (rngIter s 1), ...`). -/
def rngIter (s : Nat) : Nat → Nat
  | 0 => s
  | n + 1 => rngStep (rngIter s n)

theorem rngStep_lt (s : Nat) : rngStep s < 2 ^ 32 := by
  unfold rngStep
  exact Nat.mod_lt _ (by norm_num)

/-! ### Vec2 (class Vec2, app.js lines 33-47) -/

structure Vec2 (α : Type) where
  x : α
  y : α
deriving DecidableEq

namespace Vec2

variable {α : Type} [Field α]

def add (a b : Vec2 α) : Vec2 α := ⟨a.x + b.x, a.y + b.y⟩

def sub (a b : Vec2 α) : Vec2 α := ⟨a.x - b.x, a.y - b.y⟩

def scale (a : Vec2 α) (s : α) : Vec2 α := ⟨a.x * s, a.y * s⟩

def dot (a b : Vec2 α) : α := a.x * b.x + a.y * b.y

def perp (a : Vec2 α) : Vec2 α := ⟨-a.y, a.x⟩

end Vec2

/-! ### Mirror-Madness reflection (initGameOptics.castRay, app.js lines 700-707)

On the nearest mirror hit the source computes
`reflect = Vec2.sub(d, Vec2.scale(normal, 2 * d.dot(normal)))` where
`normal` is a unit normal of the mirror segment. -/

noncomputable def reflectDir (d n : Vec2 ℝ) : Vec2 ℝ :=
  Vec2.sub d (Vec2.scale n (2 * Vec2.dot d n))

/-! ### Torque-Tycoon (initGameTorque, app.js lines 505-533 and 645-652)

`sumTorque` folds `tau += r * F` with `F = ms.m * g`, `g = 9.81`.
`targetReached` compares `sumTorque()/stiffness` (stiffness 18000) with the
target angle at tolerance `0.02`; it never reads the displayed `lever.angle`.
`torqueStep` is the per-frame relaxation
`lever.angle = lerp(lever.angle, sumTorque()/stiffness, 1 - exp(-dt*6))`. -/

structure TMass where
  x : ℚ
  m : ℚ
  fixed : Bool
deriving DecidableEq

def sumTorque (masses : List TMass) : ℚ :=
  masses.foldl (fun tau ms => tau + ms.x * (ms.m * (981 / 100))) 0

def targetReached (masses : List TMass) (target : ℚ) : Bool :=
  decide (|sumTorque masses / 18000 - target| < 2 / 100)

noncomputable def torqueStep (masses : List TMass) (dt angle : ℝ) : ℝ :=
  angle + (((sumTorque masses : ℝ) / 18000) - angle) * (1 - Real.exp (-dt * 6))

/-! ### Frame scheduler (CanvasRunner, app.js lines 222-257, and the global
clock `lastTs`, line 94)

`_tick(ts)` returns early when not running; otherwise it computes
`dt = Math.min(0.05, (ts - lastTs)/1000)`, stores `lastTs = ts`, invokes the
draw callback with `dt`, and schedules the next tick.  `setRunning(run)` on a
false-to-true transition sets `running = true` and immediately calls
`_tick(performance.now())`; on a true-to-false transition it clears `running`
and cancels the pending scheduled tick. -/

def tickDt (lastTs ts : ℚ) : ℚ := min (5 / 100) ((ts - lastTs) / 1000)

/-- The sequence of dt values produced by successive `_tick` calls at the
given timestamps, starting from baseline `lastTs` (each tick stores its own
timestamp as the next baseline). -/
def runTicks : ℚ → List ℚ → List ℚ
  | _, [] => []
  | lastTs, ts :: rest => tickDt lastTs ts :: runTicks ts rest

namespace Runner

/-- Events observed by one CanvasRunner: `set b now` is a `setRunning(b)`
call at global time `now`; `tick ts` is a scheduled (possibly late) animation
frame callback carrying timestamp `ts`. -/
inductive Ev where
  | set : Bool → ℚ → Ev
  | tick : ℚ → Ev
deriving DecidableEq

/-- Runner state: its `running` flag together with the global `lastTs`
clock variable that `_tick` reads and writes. -/
structure RS where
  running : Bool
  lastTs : ℚ
deriving DecidableEq

/-- Body of `_tick` once past the `running` guard: compute dt, store the
timestamp into `lastTs`, and report the dt handed to the draw callback. -/
def tickDo (s : RS) (ts : ℚ) : RS × Option ℚ :=
  (⟨s.running, ts⟩, some (tickDt s.lastTs ts))

def step (s : RS) (e : Ev) : RS × Option ℚ :=
  match e with
  | .set true now => if s.running then (s, none) else tickDo ⟨true, s.lastTs⟩ now
  | .set false _ => if s.running then (⟨false, s.lastTs⟩, none) else (s, none)
  | .tick ts => if s.running then tickDo s ts else (s, none)

def runEvs (s : RS) : List Ev → RS × List ℚ
  | [] => (s, [])
  | e :: es =>
    let p := step s e
    let q := runEvs p.1 es
    (q.1, p.2.toList ++ q.2)

/-- The dt values of all draw callbacks invoked while processing `evs`. -/
def drawsOf (s : RS) (evs : List Ev) : List ℚ := (runEvs s evs).2

/-- True unless the event is a `setRunning(true)` call. -/
def isNotStart : Ev → Bool
  | .set true _ => false
  | _ => true

theorem step_not_running_of_not_start (s : RS) (hs : s.running = false)
    (e : Ev) (he : isNotStart e = true) :
    (step s e).1.running = false ∧ (step s e).2 = none := by
  cases e with
  | set b now =>
    cases b with
    | false => simp [step, hs]
    | true => simp [isNotStart] at he
  | tick ts => simp [step, hs]

theorem drawsOf_nil_of_stopped (s : RS) (hs : s.running = false)
    (evs : List Ev) (h : evs.all isNotStart = true) : drawsOf s evs = [] := by
  induction evs generalizing s with
  | nil => simp [drawsOf, runEvs]
  | cons e es ih =>
    simp only [List.all_cons, Bool.and_eq_true] at h
    have hstep := step_not_running_of_not_start s hs e h.1
    simp only [drawsOf, runEvs]
    rw [hstep.2]
    simpa [drawsOf] using ih (step s e).1 hstep.1 h.2

end Runner

/-! ### Visibility controller (app.js lines 143-220)

`onPanelActivated(name)` builds the active canvas list from a literal table
(for the games and simulations panels it consults the currently active
subtab, modelled here as an `Option String`), then walks over all eight
tracked canvas ids setting `running` to membership in the active list.
`onSubpanelActivated(section, subName)` walks only over the ids of its own
group.  Both lookups use the JavaScript pattern `table[name] || []`, which
consults the prototype chain: for an `Object.prototype` member name the
lookup returns an inherited truthy value, the `|| []` default does not
apply, and the controller throws a TypeError (`new Set` of a non-iterable,
or `active.includes` being undefined) before any `setRunning` call; the
error outcome is modelled as `none`, with every scheduler unchanged. -/

/-- The eight canvas ids tracked in the `canvasHandlers` table (a closed
literal object in the source). -/
inductive CanvasId where
  | homeOrbit
  | gameGlider
  | gameTorque
  | gameOptics
  | simProjectile
  | simPendulum
  | simRc
  | simWaves
deriving DecidableEq

/-- Which canvas handlers are currently running. -/
structure RunningSet where
  homeOrbit : Bool
  gameGlider : Bool
  gameTorque : Bool
  gameOptics : Bool
  simProjectile : Bool
  simPendulum : Bool
  simRc : Bool
  simWaves : Bool
deriving DecidableEq

/-- `Object.keys(canvasHandlers)` in source order. -/
def allCanvasIds : List CanvasId :=
  [.homeOrbit, .gameGlider, .gameTorque, .gameOptics,
   .simProjectile, .simPendulum, .simRc, .simWaves]

/-- The literal id list walked by `onSubpanelActivated("#games", ...)`. -/
def gameCanvasIds : List CanvasId := [.gameGlider, .gameTorque, .gameOptics]

/-- The literal id list walked by `onSubpanelActivated("#simulations", ...)`. -/
def simCanvasIds : List CanvasId :=
  [.simProjectile, .simPendulum, .simRc, .simWaves]

/-- `canvasHandlers[id].setRunning(b)`. -/
def setRun (rs : RunningSet) (id : CanvasId) (b : Bool) : RunningSet :=
  match id with
  | .homeOrbit => { rs with homeOrbit := b }
  | .gameGlider => { rs with gameGlider := b }
  | .gameTorque => { rs with gameTorque := b }
  | .gameOptics => { rs with gameOptics := b }
  | .simProjectile => { rs with simProjectile := b }
  | .simPendulum => { rs with simPendulum := b }
  | .simRc => { rs with simRc := b }
  | .simWaves => { rs with simWaves := b }

def getRun (rs : RunningSet) (id : CanvasId) : Bool :=
  match id with
  | .homeOrbit => rs.homeOrbit
  | .gameGlider => rs.gameGlider
  | .gameTorque => rs.gameTorque
  | .gameOptics => rs.gameOptics
  | .simProjectile => rs.simProjectile
  | .simPendulum => rs.simPendulum
  | .simRc => rs.simRc
  | .simWaves => rs.simWaves

/-- The property names every JavaScript object literal inherits from
`Object.prototype`.  A lookup `obj[name]` on a literal table finds these
even when they are not literal keys, and each of them is truthy (a
function, or the `__proto__` accessor returning an object), so the
`|| []` default does not apply to them. -/
def protoKeys : List String :=
  ["constructor", "toString", "toLocaleString", "valueOf", "hasOwnProperty",
   "isPrototypeOf", "propertyIsEnumerable", "__proto__", "__defineGetter__",
   "__defineSetter__", "__lookupGetter__", "__lookupSetter__"]

/-- The table `{ glider: ["game-glider"], torque: ["game-torque"],
optics: ["game-optics"] }[subName] || []` as consumed by
`active.includes(id)`: a literal key gives its array and any other
non-prototype name gives `[]`, but an `Object.prototype` member name
yields an inherited truthy non-array, on which `active.includes`
throws a TypeError (modelled as `none`). -/
def gamesActiveTable (subName : String) : Option (List CanvasId) :=
  if subName = "glider" then some [.gameGlider]
  else if subName = "torque" then some [.gameTorque]
  else if subName = "optics" then some [.gameOptics]
  else if subName ∈ protoKeys then none
  else some []

def simsActiveTable (subName : String) : Option (List CanvasId) :=
  if subName = "projectile" then some [.simProjectile]
  else if subName = "pendulum" then some [.simPendulum]
  else if subName = "rc" then some [.simRc]
  else if subName = "waves" then some [.simWaves]
  else if subName ∈ protoKeys then none
  else some []

/-- The `activePanels[name] || []` lookup of `onPanelActivated` as
consumed by `new Set(...)`.  The games and simulations rows read the
currently active subtab button (an `Option String`, `none` when no subtab
button is active) through the same `{...}[sub] || []` pattern, so a
prototype member subtab name stores an inherited function in the row and
`new Set` then throws; a prototype member top-level name likewise reaches
`new Set` as a truthy non-iterable.  Both error cases are `none`. -/
def panelActiveTable (name : String) (gsub ssub : Option String) :
    Option (List CanvasId) :=
  if name = "home" then some [.homeOrbit]
  else if name = "games" then
    match gsub with
    | none => some []
    | some sub => gamesActiveTable sub
  else if name = "simulations" then
    match ssub with
    | none => some []
    | some sub => simsActiveTable sub
  else if name = "videos" then some []
  else if name = "learn" then some []
  else if name = "about" then some []
  else if name ∈ protoKeys then none
  else some []

/-- `onPanelActivated(name)`: on the error row the `new Set(...)` call
throws a TypeError before the loop, so no `setRunning` call happens and
every scheduler keeps its previous state (`none`); otherwise it walks all
eight tracked ids setting `running` to membership in the active set. -/
def onPanelActivated (name : String) (gsub ssub : Option String)
    (rs : RunningSet) : Option RunningSet :=
  match panelActiveTable name gsub ssub with
  | none => none
  | some active =>
    some (allCanvasIds.foldl (fun acc id => setRun acc id (active.contains id)) rs)

/-- `onSubpanelActivated("#games", subName)`: on the error row the first
iteration evaluates `active.includes(id)` and throws before any
`setRunning` call (`none`); otherwise it walks only the three game ids. -/
def onSubpanelGames (subName : String) (rs : RunningSet) : Option RunningSet :=
  match gamesActiveTable subName with
  | none => none
  | some active =>
    some (gameCanvasIds.foldl (fun acc id => setRun acc id (active.contains id)) rs)

def onSubpanelSims (subName : String) (rs : RunningSet) : Option RunningSet :=
  match simsActiveTable subName with
  | none => none
  | some active =>
    some (simCanvasIds.foldl (fun acc id => setRun acc id (active.contains id)) rs)


/-! ### Wave interference (initSimWaves.draw, app.js lines 1004-1033)

For each pixel the source computes `r1`, `r2` (distances to the two
sources), `phase = state.k*(r1 + r2) - omega*state.t` with
`state.k = 2*PI/lambda` and `omega = 2*PI*speed/lambda`, and the intensity
`I = 0.5 + 0.5*Math.cos(phase)`. -/

noncomputable def wavePhase (lambda speed t r1 r2 : ℝ) : ℝ :=
  (2 * Real.pi / lambda) * (r1 + r2) - (2 * Real.pi * speed / lambda) * t

noncomputable def waveIntensity (lambda speed t r1 r2 : ℝ) : ℝ :=
  5 / 10 + 5 / 10 * Real.cos (wavePhase lambda speed t r1 r2)

/-! ### Space-Glider (initGameGlider, app.js lines 305-495)

State owned by the closure: `level`, `score`, `fuel`, `ship`
(position/velocity/acceleration/angle/radius), the `wells` and `orbs`
arrays, and the generator `rng` used by `resetLevel` to lay out wells and
orbs.  `update(dt, c)` runs, in order: gravity accumulation into `ship.a`,
thrust and fuel drain, turn keys, the `keys["r"]` restart, Euler
integration, edge bounce, orb collection, and the well-collision check that
calls `resetLevel(level)`. -/

def clampQ {α : Type} [LinearOrder α] (x a b : α) : α := max a (min b x)

structure Ship where
  p : Vec2 ℝ
  v : Vec2 ℝ
  a : Vec2 ℝ
  angle : ℝ
  r : ℝ

structure Well where
  p : Vec2 ℝ
  m : ℝ
  R : ℝ

structure Orb where
  p : Vec2 ℝ
  r : ℝ
  got : Bool

/-- The keyboard state read by `update`: arrowup/w, shift, arrowleft/a,
arrowright/d, and r. -/
structure GKeys where
  up : Bool
  w : Bool
  shift : Bool
  left : Bool
  a : Bool
  right : Bool
  d : Bool
  r : Bool

structure GliderState where
  level : Nat
  score : Nat
  fuel : ℝ
  ship : Ship
  wells : List Well
  orbs : List Orb
  rng : Nat

/-- One `rng.range(a, b)` call: `a + (b - a) * next()`, threading the
32-bit generator state. -/
noncomputable def rngRangeR (a b : ℝ) (s : Nat) : ℝ × Nat :=
  (a + (b - a) * ((rngStep s : ℝ) / 4294967295), rngStep s)

/-- The wells loop of `resetLevel`: each well draws its x, y, mass and
radius from the generator in source order. -/
noncomputable def mkWells : Nat → ℝ → ℝ → Nat → List Well × Nat
  | 0, _, _, s => ([], s)
  | n + 1, w, h, s =>
    let px := rngRangeR (w * (35 / 100)) (w * (9 / 10)) s
    let py := rngRangeR (h * (15 / 100)) (h * (85 / 100)) px.2
    let m := rngRangeR 20000 40000 py.2
    let R := rngRangeR 24 42 m.2
    let rest := mkWells n w h R.2
    (⟨⟨px.1, py.1⟩, m.1, R.1⟩ :: rest.1, rest.2)

/-- The orbs loop of `resetLevel`: each orb draws its x and y; radius 8,
not yet collected. -/
noncomputable def mkOrbs : Nat → ℝ → ℝ → Nat → List Orb × Nat
  | 0, _, _, s => ([], s)
  | n + 1, w, h, s =>
    let px := rngRangeR (w * (25 / 100)) (w * (95 / 100)) s
    let py := rngRangeR (h * (1 / 10)) (h * (9 / 10)) px.2
    let rest := mkOrbs n w h py.2
    (⟨⟨px.1, py.1⟩, 8, false⟩ :: rest.1, rest.2)

/-- `resetLevel(lv)` (app.js lines 321-352): score 0, fuel 100, ship at
`(w*0.15, h*0.5)` with zero velocity and acceleration, 3 or 5 wells and
7 or 12 orbs laid out from the generator. -/
noncomputable def resetLevel (lv : Nat) (cw ch : ℝ) (s : Nat) : GliderState :=
  let wells := mkWells (if lv = 1 then 3 else 5) cw ch s
  let orbs := mkOrbs (if lv = 1 then 7 else 12) cw ch wells.2
  { level := lv
    score := 0
    fuel := 100
    ship :=
      { p := ⟨cw * (15 / 100), ch * (5 / 10)⟩
        v := ⟨0, 0⟩
        a := ⟨0, 0⟩
        angle := 0
        r := 12 }
    wells := wells.1
    orbs := orbs.1
    rng := orbs.2 }

/-- Gravity accumulation: `ship.a.set(0,0)` then for each well
`d = w.p - ship.p`, `r2 = max(120, |d|^2)`, `F = G*m/r2` with `G = 1000`,
`ship.a += d * (F / sqrt(r2))`. -/
noncomputable def gravityAcc (wells : List Well) (p : Vec2 ℝ) : Vec2 ℝ :=
  wells.foldl
    (fun acc w =>
      let d := Vec2.sub w.p p
      let r2 := max 120 (d.x * d.x + d.y * d.y)
      let F := 1000 * w.m / r2
      Vec2.add acc (Vec2.scale d (F / Real.sqrt r2)))
    ⟨0, 0⟩

open Classical in
/-- The control phase of `update`: gravity, thrust and fuel drain, turn
keys, and the `keys["r"]` restart (which rebuilds the whole closure state
from `resetLevel(level)`, discarding the updates so far). -/
noncomputable def gliderControls (st : GliderState) (k : GKeys) (dt cw ch : ℝ) :
    GliderState :=
  let acc := gravityAcc st.wells st.ship.p
  let thrust0 : ℝ := if k.up || k.w then 120 else 0
  let thrust : ℝ := if k.shift then thrust0 * (17 / 10) else thrust0
  let boosted : Vec2 ℝ × ℝ :=
    if thrust > 0 ∧ st.fuel > 0 then
      (Vec2.add acc
          (Vec2.scale ⟨Real.cos st.ship.angle, Real.sin st.ship.angle⟩ thrust),
        clampQ (st.fuel - dt * (if k.shift then 4 else 2)) 0 100)
    else (acc, st.fuel)
  let angle1 := if k.left || k.a then st.ship.angle - 26 / 10 * dt else st.ship.angle
  let angle2 := if k.right || k.d then angle1 + 26 / 10 * dt else angle1
  if k.r then resetLevel st.level cw ch st.rng
  else
    { st with
      fuel := boosted.2
      ship := { st.ship with a := boosted.1, angle := angle2 } }

open Classical in
/-- Euler integration and the edge bounce: `v += a*dt`, `p += v*dt`, then on
each axis, leaving `[0, width]` (resp. `[0, height]`) multiplies that
velocity component by `-0.6` and clamps the coordinate. -/
noncomputable def gliderIntegrate (st : GliderState) (dt pw ph : ℝ) :
    GliderState :=
  let v := Vec2.add st.ship.v (Vec2.scale st.ship.a dt)
  let p := Vec2.add st.ship.p (Vec2.scale v dt)
  let bx : ℝ × ℝ :=
    if p.x < 0 ∨ p.x > pw then (v.x * (-(6 / 10)), clampQ p.x 0 pw)
    else (v.x, p.x)
  let by2 : ℝ × ℝ :=
    if p.y < 0 ∨ p.y > ph then (v.y * (-(6 / 10)), clampQ p.y 0 ph)
    else (v.y, p.y)
  { st with ship := { st.ship with v := ⟨bx.1, by2.1⟩, p := ⟨bx.2, by2.2⟩ } }

open Classical in
/-- Orb collection: every not-yet-collected orb within `o.r + ship.r` of the
ship becomes collected and adds 10 to the score. -/
noncomputable def collectOrbs (s : Ship) :
    List Orb → Nat → List Orb × Nat
  | [], sc => ([], sc)
  | o :: rest, sc =>
    if o.got then
      let q := collectOrbs s rest sc
      (o :: q.1, q.2)
    else
      let dx := o.p.x - s.p.x
      let dy := o.p.y - s.p.y
      if dx * dx + dy * dy < (o.r + s.r) * (o.r + s.r) then
        let q := collectOrbs s rest (sc + 10)
        ({ o with got := true } :: q.1, q.2)
      else
        let q := collectOrbs s rest sc
        (o :: q.1, q.2)

/-- The well collision test of the final loop of `update`:
`dx*dx + dy*dy < (w.R + ship.r)*(w.R + ship.r)`. -/
def wellHit (s : Ship) (w : Well) : Prop :=
  (w.p.x - s.p.x) * (w.p.x - s.p.x) + (w.p.y - s.p.y) * (w.p.y - s.p.y) <
    (w.R + s.r) * (w.R + s.r)

open Classical in
/-- The final loop of `update`: on the first well within `w.R + ship.r` of
the ship it calls `resetLevel(level)` and breaks, so the state is rebuilt
exactly when some well collides. -/
noncomputable def checkWells (st : GliderState) (cw ch : ℝ) : GliderState :=
  if ∃ w ∈ st.wells, wellHit st.ship w then resetLevel st.level cw ch st.rng
  else st

/-- The state reached by `update` just before its final well-collision
loop: controls, integration and bounce, then orb collection. -/
noncomputable def gliderPreCollision (st : GliderState) (k : GKeys)
    (dt cw ch pw ph : ℝ) : GliderState :=
  let st1 := gliderIntegrate (gliderControls st k dt cw ch) dt pw ph
  let q := collectOrbs st1.ship st1.orbs st1.score
  { st1 with orbs := q.1, score := q.2 }

noncomputable def gliderUpdate (st : GliderState) (k : GKeys)
    (dt cw ch pw ph : ℝ) : GliderState :=
  checkWells (gliderPreCollision st k dt cw ch pw ph) cw ch

/-! ## Claim theorems -/

/-- Claim C9 (confirmed): for any incoming direction `d` parallel to the
unit normal `n` of the mirror it hits (the head-on case), the reflection
`d - 2(d.n)n` computed by castRay is the exact reverse `-d` of the incoming
direction. -/
theorem optics_headon_reflects_back (d n : Vec2 ℝ) (c : ℝ)
    (hn : Vec2.dot n n = 1) (hd : d = Vec2.scale n c) :
    reflectDir d n = Vec2.scale d (-1) := by
  subst hd
  simp only [reflectDir, Vec2.sub, Vec2.scale, Vec2.dot, Vec2.mk.injEq] at *
  constructor
  · linear_combination (-(2 * n.x * c)) * hn
  · linear_combination (-(2 * n.y * c)) * hn

/-- Witness for C9: the horizontal mirror normal `(1, 0)` and the incoming
direction `(-1, 0)` reflect to `(1, 0)`. -/
theorem optics_headon_reflects_back_witness :
    Vec2.dot (⟨1, 0⟩ : Vec2 ℝ) ⟨1, 0⟩ = 1 ∧
      reflectDir ⟨-1, 0⟩ ⟨1, 0⟩ = Vec2.scale ⟨-1, 0⟩ (-1) :=
  ⟨by norm_num [Vec2.dot],
    optics_headon_reflects_back ⟨-1, 0⟩ ⟨1, 0⟩ (-1)
      (by norm_num [Vec2.dot]) (by norm_num [Vec2.scale])⟩

/-- Counterexample to claim C2: seeding the generator with 1584200935 makes
the very first `next()` return exactly 1 (the state steps to
`0xffffffff` and the source divides by `0xffffffff`), so the returned
values do not all lie in the half-open interval `[0, 1)`. -/
theorem rng_unit_interval_counterexample :
    rngValue 1584200935 = 1 ∧ ¬(rngValue 1584200935 < 1) := by
  have h : rngStep 1584200935 = 4294967295 := by decide
  constructor
  · rw [rngValue, h]; norm_num
  · rw [rngValue, h]; norm_num

/-- Claim C2 as amended: the sequence is a pure function of the seed, and
every value returned by `next()` lies in the closed interval `[0, 1]`; the
endpoint 1 is attained, so the interval cannot be tightened to `[0, 1)`. -/
theorem rng_values_in_closed_unit_interval (s n : Nat) :
    0 ≤ rngValue (rngIter s n) ∧ rngValue (rngIter s n) ≤ 1 := by
  constructor
  · unfold rngValue
    positivity
  · unfold rngValue
    rw [div_le_one (by norm_num)]
    have h := rngStep_lt (rngIter s n)
    have h2 : rngStep (rngIter s n) ≤ 4294967295 := by omega
    exact_mod_cast h2

/-- Counterexample to claim C3: with the single fixed mass at offset -200
and the target angle 0, the displayed lever angle 0 satisfies
`|displayedAngle - targetAngle| < 0.02`, yet `targetReached()` is false:
the source compares `sumTorque()/18000` with the target, never the
displayed angle. -/
theorem torque_displayed_angle_counterexample :
    |(0 : ℚ) - 0| < 2 / 100 ∧ targetReached [⟨-200, 10, false⟩] 0 = false := by
  constructor
  · norm_num
  · simp only [targetReached, decide_eq_false_iff_not]
    have h : sumTorque [⟨-200, 10, false⟩] = -19620 := by
      norm_num [sumTorque, List.foldl]
    rw [h, show ((-19620 : ℚ) / 18000 - 0) = -(109 / 100) by norm_num,
      abs_neg, abs_of_nonneg (by norm_num)]
    norm_num

/-- Claim C3 as amended: the success predicate holds exactly when the
equilibrium displayed angle is within tolerance of the target, where the
equilibrium angle (the unique fixed point of the exponential relaxation
step for any positive dt) is `sumTorque()/stiffness`; the instantaneous
displayed angle is not consulted. -/
theorem torque_success_iff_equilibrium_close (masses : List TMass)
    (target : ℚ) (dt angle : ℝ) (hdt : 0 < dt) :
    (torqueStep masses dt angle = angle ↔
      angle = (sumTorque masses : ℝ) / 18000) ∧
    (targetReached masses target = true ↔
      |sumTorque masses / 18000 - target| < 2 / 100) := by
  constructor
  · have hexp : Real.exp (-dt * 6) < 1 := by
      rw [Real.exp_lt_one_iff]
      nlinarith
    unfold torqueStep
    constructor
    · intro h
      have h2 : ((sumTorque masses : ℝ) / 18000 - angle) *
          (1 - Real.exp (-dt * 6)) = 0 := by linarith
      rcases mul_eq_zero.mp h2 with h3 | h3
      · linarith
      · linarith
    · intro h
      rw [h]
      ring
  · simp [targetReached]

/-- Witness for C3 amended: at dt = 1 with the single fixed mass and
target 0, both equivalences are obtained from the theorem. -/
theorem torque_success_iff_equilibrium_close_witness :
    (0 : ℝ) < 1 ∧
    ((torqueStep [⟨-200, 10, false⟩] 1 0 = 0 ↔
        (0 : ℝ) = (sumTorque [⟨-200, 10, false⟩] : ℝ) / 18000) ∧
      (targetReached [⟨-200, 10, false⟩] 0 = true ↔
        |sumTorque [⟨-200, 10, false⟩] / 18000 - 0| < 2 / 100)) :=
  ⟨by norm_num,
    torque_success_iff_equilibrium_close [⟨-200, 10, false⟩] 0 1 0 (by norm_num)⟩

/-- Claim C5 (confirmed): for a monotone sequence of callback timestamps,
each dt handed to the draw callback is `min(0.05, gap)` where `gap` is the
elapsed time (in seconds) since the previous frame baseline, and no dt is
negative. -/
theorem frame_dt_clamped_nonneg (lastTs : ℚ) (tss : List ℚ)
    (hmono : List.Chain' (· ≤ ·) (lastTs :: tss)) :
    runTicks lastTs tss =
      (tss.zip (lastTs :: tss)).map
        (fun pr => min (5 / 100) ((pr.1 - pr.2) / 1000)) ∧
    ∀ dt ∈ runTicks lastTs tss, 0 ≤ dt := by
  induction tss generalizing lastTs with
  | nil => simp [runTicks]
  | cons ts rest ih =>
    rw [List.chain'_cons] at hmono
    obtain ⟨hle, hrest⟩ := hmono
    obtain ⟨ih1, ih2⟩ := ih ts hrest
    refine ⟨?_, ?_⟩
    · simp only [runTicks, List.zip_cons_cons, List.map_cons, ih1, tickDt]
    · intro dt hdt
      rcases List.mem_cons.mp hdt with h | h
      · subst h
        refine le_min (by norm_num) ?_
        have : (0 : ℚ) ≤ ts - lastTs := by linarith
        positivity
      · exact ih2 dt h

/-- Witness for C5: the timestamps 0, 16, 2000 are monotone, the produced
dt values are the clamped gaps, and all are nonnegative. -/
theorem frame_dt_clamped_nonneg_witness :
    List.Chain' (· ≤ ·) [(0 : ℚ), 16, 2000] ∧
    (runTicks 0 [16, 2000] =
      ([(16 : ℚ), 2000].zip [(0 : ℚ), 16, 2000]).map
        (fun pr => min (5 / 100) ((pr.1 - pr.2) / 1000)) ∧
      ∀ dt ∈ runTicks 0 [16, 2000], 0 ≤ dt) :=
  ⟨by norm_num [List.chain'_cons],
    frame_dt_clamped_nonneg 0 [16, 2000] (by norm_num [List.chain'_cons])⟩

/-- Counterexample to claim C6: with the shared global baseline at 0, a
`setRunning(true)` call at time 1000 invokes the first draw immediately
with dt = 0.05 (clamped from the full second accumulated while stopped),
whereas a baseline captured at the transition would give dt = 0: the first
dt after a restart does not reflect only time elapsed since the
transition. -/
theorem runner_restart_stale_baseline_counterexample :
    (Runner.step ⟨false, 0⟩ (.set true 1000)).2 = some (5 / 100) ∧
    tickDt 1000 1000 = 0 ∧ (5 / 100 : ℚ) ≠ 0 := by
  refine ⟨?_, ?_, by norm_num⟩
  · simp only [Runner.step, Runner.tickDo, tickDt, Bool.false_eq_true,
      if_false]
    norm_num [min_def]
  · norm_num [tickDt]

/-- Claim C6 as amended: a false-to-true `setRunning` transition at time
`now` immediately runs one tick: the first dt is computed from the shared
global baseline `g` (so it can include time accumulated while stopped or
advanced by other runners, clamped to 0.05), and only then is the baseline
set to `now`, so every subsequent tick at `ts` sees a dt depending only on
`ts - now`. -/
theorem runner_restart_first_dt (g now ts : ℚ) :
    Runner.step ⟨false, g⟩ (.set true now) =
      (⟨true, now⟩, some (min (5 / 100) ((now - g) / 1000))) ∧
    (Runner.step ⟨true, now⟩ (.tick ts)).2 =
      some (min (5 / 100) ((ts - now) / 1000)) := by
  constructor
  · simp [Runner.step, Runner.tickDo, tickDt]
  · simp [Runner.step, Runner.tickDo, tickDt]

/-- Claim C8 (confirmed): a `setRunning(false)` call invokes no draw
itself, and afterwards no draw callback runs for any sequence of further
events (late ticks included) that contains no `setRunning(true)` call. -/
theorem runner_no_draws_after_stop (s : Runner.RS) (now : ℚ)
    (evs : List Runner.Ev) (h : evs.all Runner.isNotStart = true) :
    (Runner.step s (.set false now)).2 = none ∧
    Runner.drawsOf (Runner.step s (.set false now)).1 evs = [] := by
  constructor
  · by_cases hr : s.running <;> simp [Runner.step, hr]
  · apply Runner.drawsOf_nil_of_stopped _ _ _ h
    by_cases hr : s.running <;> simp [Runner.step, hr]

/-- Witness for C8: stopping at time 50 and then receiving two late ticks
and another stop produces no draws. -/
theorem runner_no_draws_after_stop_witness :
    ([Runner.Ev.tick 100, Runner.Ev.set false 200,
        Runner.Ev.tick 300].all Runner.isNotStart = true) ∧
    ((Runner.step ⟨true, 0⟩ (.set false 50)).2 = none ∧
      Runner.drawsOf (Runner.step ⟨true, 0⟩ (.set false 50)).1
        [Runner.Ev.tick 100, Runner.Ev.set false 200,
          Runner.Ev.tick 300] = []) :=
  ⟨rfl, runner_no_draws_after_stop ⟨true, 0⟩ 50 _ rfl⟩

theorem getRun_setRun (rs : RunningSet) (i j : CanvasId) (b : Bool) :
    getRun (setRun rs j b) i = if i = j then b else getRun rs i := by
  cases i <;> cases j <;> simp [setRun, getRun]

/-- Counterexample to claim C7, on two counts.  First, activating the
games subtab "glider" from a state where only `sim-rc` is running leaves
`sim-rc` running (the subtab handler walks only the three game canvases),
so the running set is not exactly the mapped set `["game-glider"]`.
Second, the unmapped top-level name "toString" does not yield the empty
running set without error: the prototype-chain lookup returns the
inherited `toString` function, `new Set` throws a TypeError, and every
scheduler keeps running. -/
theorem visibility_subtab_scope_counterexample :
    onSubpanelGames "glider"
        ⟨false, false, false, false, false, false, true, false⟩ =
      some ⟨false, true, false, false, false, false, true, false⟩ ∧
    gamesActiveTable "glider" = some [CanvasId.gameGlider] ∧
    CanvasId.simRc ∉ [CanvasId.gameGlider] ∧
    onPanelActivated "toString" none none
        ⟨true, true, true, true, true, true, true, true⟩ = none := by
  refine ⟨?_, ?_, by decide, ?_⟩
  · simp [onSubpanelGames, gamesActiveTable, gameCanvasIds, setRun]
  · simp [gamesActiveTable]
  · simp [onPanelActivated, panelActiveTable, protoKeys]

/-- Claim C7 as amended: when the table row resolves to a canvas list, a
top-level activation makes exactly that row run and stops every other
tracked scheduler; an unmapped top-level name that is not an
`Object.prototype` member name resolves to the empty row (everything
stops, no error), but a prototype member name makes the controller throw a
TypeError before any `setRunning` call, leaving every scheduler unchanged.
A subtab activation enforces its row only on its own group of canvases —
exactly the mapped canvas of the group runs, the rest of the group stops,
and schedulers outside the group keep their previous state — with the
same split for unmapped subtab names: non-prototype names resolve to the
empty row for the group, prototype member names throw with nothing
changed. -/
theorem visibility_running_sets :
    (∀ (name : String) (gsub ssub : Option String) (rs : RunningSet)
        (id : CanvasId) (l : List CanvasId),
      panelActiveTable name gsub ssub = some l →
      (onPanelActivated name gsub ssub rs).map (fun rs2 => getRun rs2 id) =
        some (l.contains id)) ∧
    (∀ (name : String) (gsub ssub : Option String) (rs : RunningSet),
      panelActiveTable name gsub ssub = none →
      onPanelActivated name gsub ssub rs = none) ∧
    (∀ (name : String) (gsub ssub : Option String),
      name ≠ "home" → name ≠ "games" → name ≠ "simulations" →
        name ≠ "videos" → name ≠ "learn" → name ≠ "about" →
        name ∉ protoKeys → panelActiveTable name gsub ssub = some []) ∧
    (∀ (name : String) (gsub ssub : Option String),
      name ∈ protoKeys → panelActiveTable name gsub ssub = none) ∧
    (∀ (sub : String) (rs : RunningSet) (id : CanvasId) (l : List CanvasId),
      gamesActiveTable sub = some l → id ∈ gameCanvasIds →
      (onSubpanelGames sub rs).map (fun rs2 => getRun rs2 id) =
        some (l.contains id)) ∧
    (∀ (sub : String) (rs : RunningSet) (id : CanvasId) (l : List CanvasId),
      gamesActiveTable sub = some l → id ∉ gameCanvasIds →
      (onSubpanelGames sub rs).map (fun rs2 => getRun rs2 id) =
        some (getRun rs id)) ∧
    (∀ (sub : String) (rs : RunningSet),
      gamesActiveTable sub = none → onSubpanelGames sub rs = none) ∧
    (∀ sub : String, sub ≠ "glider" → sub ≠ "torque" → sub ≠ "optics" →
      sub ∉ protoKeys → gamesActiveTable sub = some []) ∧
    (∀ sub : String, sub ∈ protoKeys → gamesActiveTable sub = none) ∧
    (∀ (sub : String) (rs : RunningSet) (id : CanvasId) (l : List CanvasId),
      simsActiveTable sub = some l → id ∈ simCanvasIds →
      (onSubpanelSims sub rs).map (fun rs2 => getRun rs2 id) =
        some (l.contains id)) ∧
    (∀ (sub : String) (rs : RunningSet) (id : CanvasId) (l : List CanvasId),
      simsActiveTable sub = some l → id ∉ simCanvasIds →
      (onSubpanelSims sub rs).map (fun rs2 => getRun rs2 id) =
        some (getRun rs id)) ∧
    (∀ (sub : String) (rs : RunningSet),
      simsActiveTable sub = none → onSubpanelSims sub rs = none) ∧
    (∀ sub : String, sub ≠ "projectile" → sub ≠ "pendulum" → sub ≠ "rc" →
      sub ≠ "waves" → sub ∉ protoKeys → simsActiveTable sub = some []) ∧
    (∀ sub : String, sub ∈ protoKeys → simsActiveTable sub = none) := by
  refine ⟨?_, ?_, ?_, ?_, ?_, ?_, ?_, ?_, ?_, ?_, ?_, ?_, ?_, ?_⟩
  · intro name gsub ssub rs id l hl
    simp only [onPanelActivated, hl, Option.map_some, allCanvasIds,
      List.foldl]
    cases id <;> simp [getRun_setRun, List.contains]
  · intro name gsub ssub rs h
    simp [onPanelActivated, h]
  · intro name gsub ssub h1 h2 h3 h4 h5 h6 h7
    simp [panelActiveTable, h1, h2, h3, h4, h5, h6, h7]
  · intro name gsub ssub h
    simp only [protoKeys, List.mem_cons, List.not_mem_nil, or_false] at h
    rcases h with rfl | rfl | rfl | rfl | rfl | rfl | rfl | rfl | rfl | rfl |
      rfl | rfl <;> simp [panelActiveTable, protoKeys]
  · intro sub rs id l hl hid
    simp only [onSubpanelGames, hl, Option.map_some, gameCanvasIds,
      List.foldl]
    cases id <;> simp_all [gameCanvasIds, getRun_setRun, List.contains]
  · intro sub rs id l hl hid
    simp only [onSubpanelGames, hl, Option.map_some, gameCanvasIds,
      List.foldl]
    cases id <;> simp_all [gameCanvasIds, getRun_setRun]
  · intro sub rs h
    simp [onSubpanelGames, h]
  · intro sub h1 h2 h3 h4
    simp [gamesActiveTable, h1, h2, h3, h4]
  · intro sub h
    simp only [protoKeys, List.mem_cons, List.not_mem_nil, or_false] at h
    rcases h with rfl | rfl | rfl | rfl | rfl | rfl | rfl | rfl | rfl | rfl |
      rfl | rfl <;> simp [gamesActiveTable, protoKeys]
  · intro sub rs id l hl hid
    simp only [onSubpanelSims, hl, Option.map_some, simCanvasIds, List.foldl]
    cases id <;> simp_all [simCanvasIds, getRun_setRun, List.contains]
  · intro sub rs id l hl hid
    simp only [onSubpanelSims, hl, Option.map_some, simCanvasIds, List.foldl]
    cases id <;> simp_all [simCanvasIds, getRun_setRun]
  · intro sub rs h
    simp [onSubpanelSims, h]
  · intro sub h1 h2 h3 h4 h5
    simp [simsActiveTable, h1, h2, h3, h4, h5]
  · intro sub h
    simp only [protoKeys, List.mem_cons, List.not_mem_nil, or_false] at h
    rcases h with rfl | rfl | rfl | rfl | rfl | rfl | rfl | rfl | rfl | rfl |
      rfl | rfl <;> simp [simsActiveTable, protoKeys]

/-- Witness for C7 amended: the "rc" simulations subtab makes exactly
`sim-rc` run inside its group; the unknown non-prototype top-level name
"bogus" resolves to the empty row; the prototype member name "toString"
hits the error path with every scheduler unchanged. -/
theorem visibility_running_sets_witness :
    (simsActiveTable "rc" = some [CanvasId.simRc] ∧
      CanvasId.simRc ∈ simCanvasIds) ∧
    (onSubpanelSims "rc" ⟨true, true, true, true, true, true, true, true⟩).map
        (fun rs2 => getRun rs2 .simRc) =
      some (([CanvasId.simRc] : List CanvasId).contains .simRc) ∧
    panelActiveTable "bogus" none none = some [] ∧
    ("toString" ∈ protoKeys ∧
      onPanelActivated "toString" none none
        ⟨true, true, true, true, true, true, true, true⟩ = none) := by
  obtain ⟨hp, hperr, hpunk, hpproto, hg, hgout, hgerr, hgunk, hgproto, hs,
    hsout, hserr, hsunk, hsproto⟩ := visibility_running_sets
  refine ⟨⟨by simp [simsActiveTable], by decide⟩, ?_, ?_, by decide, ?_⟩
  · exact hs "rc" ⟨true, true, true, true, true, true, true, true⟩ .simRc
      [CanvasId.simRc] (by simp [simsActiveTable]) (by decide)
  · exact hpunk "bogus" none none (by decide) (by decide) (by decide)
      (by decide) (by decide) (by decide) (by decide)
  · exact hperr "toString" none none
      ⟨true, true, true, true, true, true, true, true⟩
      (hpproto "toString" none none (by decide))

/-- Counterexample to claim C1: with wavelength 40 at a pixel 10 units from
each source and t = 0, the phase is `(2*pi/40)*20 = pi`, so the intensity
`0.5 + 0.5*cos(pi)` is 0 — the exact minimum, not the maximum 1.  An
equidistant point is not a maximum for every wavelength, because the phase
uses the path-length sum `r1 + r2`, not the difference. -/
theorem wave_equidistant_counterexample :
    waveIntensity 40 60 0 10 10 = 0 ∧ waveIntensity 40 60 0 10 10 ≠ 1 := by
  have h : wavePhase 40 60 0 10 10 = Real.pi := by
    unfold wavePhase
    ring
  constructor
  · unfold waveIntensity
    rw [h, Real.cos_pi]
    norm_num
  · unfold waveIntensity
    rw [h, Real.cos_pi]
    norm_num

/-- Claim C1 as amended: at a pixel equidistant from the two sources
(`r1 = r2 = r`) at `t = 0`, the intensity is maximal (equal to 1) when
additionally the path-length sum `2r` is an integer multiple of the
wavelength; for such points the phase `k*(r1+r2)` is a multiple of
`2*pi`. -/
theorem wave_equidistant_max_of_multiple (lambda speed r : ℝ) (n : ℤ)
    (hlam : lambda ≠ 0) (h : 2 * r = n * lambda) :
    waveIntensity lambda speed 0 r r = 1 := by
  have hphase : wavePhase lambda speed 0 r r = n * (2 * Real.pi) := by
    unfold wavePhase
    rw [show r + r = (n : ℝ) * lambda by linarith]
    field_simp
    ring
  unfold waveIntensity
  rw [hphase, Real.cos_int_mul_two_pi]
  norm_num

/-- Witness for C1 amended: wavelength 40, common distance 20, so the
round trip 40 is one wavelength and the intensity is exactly 1. -/
theorem wave_equidistant_max_of_multiple_witness :
    (40 : ℝ) ≠ 0 ∧ 2 * (20 : ℝ) = (1 : ℤ) * 40 ∧
      waveIntensity 40 60 0 20 20 = 1 :=
  ⟨by norm_num, by norm_num,
    wave_equidistant_max_of_multiple 40 60 20 1 (by norm_num) (by norm_num)⟩

/-! ### Concrete glider scenarios used by the claim theorems -/

noncomputable def cexShip : Ship := ⟨⟨22, 0⟩, ⟨0, 0⟩, ⟨0, 0⟩, 0, 12⟩

noncomputable def cexWell : Well := ⟨⟨0, 0⟩, 0, 10⟩

/-- Level 1, score 10, fuel 50, massless well of radius 10 at the origin,
ship of radius 12 resting at distance exactly `10 + 12 = 22` from it. -/
noncomputable def cexState : GliderState := ⟨1, 10, 50, cexShip, [cexWell], [], 0⟩

noncomputable def wShip : Ship := ⟨⟨10, 0⟩, ⟨0, 0⟩, ⟨0, 0⟩, 0, 12⟩

/-- Like `cexState` but with the ship well inside the collision radius. -/
noncomputable def wState : GliderState := ⟨1, 7, 50, wShip, [cexWell], [], 0⟩

def keysNone : GKeys := ⟨false, false, false, false, false, false, false, false⟩

/-- Counterexample to claim C4: with the ship resting at distance exactly
`wellRadius + shipRadius` from the well (squared distance equal to, hence
at or below, the squared radius sum), an update with dt = 0 does not reset
the level: the source tests the strict inequality `<`, so score stays 10
and fuel stays 50. -/
theorem glider_boundary_no_reset_counterexample :
    (∃ w ∈ (gliderPreCollision cexState keysNone 0 100 100 100 100).wells,
      (w.p.x - (gliderPreCollision cexState keysNone 0 100 100 100 100).ship.p.x) *
          (w.p.x - (gliderPreCollision cexState keysNone 0 100 100 100 100).ship.p.x) +
        (w.p.y - (gliderPreCollision cexState keysNone 0 100 100 100 100).ship.p.y) *
          (w.p.y - (gliderPreCollision cexState keysNone 0 100 100 100 100).ship.p.y) ≤
        (w.R + (gliderPreCollision cexState keysNone 0 100 100 100 100).ship.r) *
          (w.R + (gliderPreCollision cexState keysNone 0 100 100 100 100).ship.r)) ∧
    (gliderUpdate cexState keysNone 0 100 100 100 100).score = 10 ∧
    (gliderUpdate cexState keysNone 0 100 100 100 100).fuel = 50 := by
  refine ⟨?_, ?_⟩
  · norm_num [gliderPreCollision, gliderControls, gliderIntegrate, collectOrbs,
      gravityAcc, Vec2.add, Vec2.sub, Vec2.scale, cexState, cexShip, cexWell,
      keysNone, clampQ]
  · norm_num [gliderUpdate, gliderPreCollision, gliderControls, gliderIntegrate,
      checkWells, collectOrbs, gravityAcc, wellHit, Vec2.add, Vec2.sub,
      Vec2.scale, cexState, cexShip, cexWell, keysNone, clampQ]

/-- Claim C4 as amended: when the squared distance from the (integrated)
ship center to some well center is strictly below the squared sum
`(wellRadius + shipRadius)^2`, the update resets the current level: score
becomes 0, fuel becomes 100, the ship returns to its initial position
`(0.15*width, 0.5*height)` with zero velocity, and the level index is
kept.  At exact equality no reset occurs. -/
theorem glider_well_collision_resets (st : GliderState) (k : GKeys)
    (dt cw ch pw ph : ℝ)
    (h : ∃ w ∈ (gliderPreCollision st k dt cw ch pw ph).wells,
      wellHit (gliderPreCollision st k dt cw ch pw ph).ship w) :
    (gliderUpdate st k dt cw ch pw ph).score = 0 ∧
    (gliderUpdate st k dt cw ch pw ph).fuel = 100 ∧
    (gliderUpdate st k dt cw ch pw ph).ship.p =
      ⟨cw * (15 / 100), ch * (5 / 10)⟩ ∧
    (gliderUpdate st k dt cw ch pw ph).ship.v = ⟨0, 0⟩ ∧
    (gliderUpdate st k dt cw ch pw ph).level = st.level := by
  unfold gliderUpdate checkWells
  rw [if_pos h]
  refine ⟨by simp [resetLevel], by simp [resetLevel], by simp [resetLevel],
    by simp [resetLevel], ?_⟩
  simp only [resetLevel]
  simp only [gliderPreCollision, gliderIntegrate]
  unfold gliderControls
  by_cases hr : k.r <;> simp [hr, resetLevel]

/-- Witness for C4 amended: the ship 10 units from the well (strictly
inside the 22-unit collision radius) triggers the reset — score 0 and
fuel 100. -/
theorem glider_well_collision_resets_witness :
    (∃ w ∈ (gliderPreCollision wState keysNone 0 100 100 100 100).wells,
      wellHit (gliderPreCollision wState keysNone 0 100 100 100 100).ship w) ∧
    (gliderUpdate wState keysNone 0 100 100 100 100).score = 0 ∧
    (gliderUpdate wState keysNone 0 100 100 100 100).fuel = 100 := by
  have h : ∃ w ∈ (gliderPreCollision wState keysNone 0 100 100 100 100).wells,
      wellHit (gliderPreCollision wState keysNone 0 100 100 100 100).ship w := by
    norm_num [gliderPreCollision, gliderControls, gliderIntegrate, collectOrbs,
      gravityAcc, wellHit, Vec2.add, Vec2.sub, Vec2.scale, wState, wShip,
      cexWell, keysNone, clampQ]
  exact ⟨h, (glider_well_collision_resets wState keysNone 0 100 100 100 100 h).1,
    (glider_well_collision_resets wState keysNone 0 100 100 100 100 h).2.1⟩

/-- Claim C10 (confirmed): `resetLevel` puts fuel at 100, and one update
step — for any nonnegative dt and any key state — keeps fuel inside
`[0, 100]` when it starts there: the thrust branch clamps the drained fuel
to `[0, 100]`, the two reset paths set it to 100, and no other code in the
step touches fuel. -/
theorem glider_fuel_in_range (st : GliderState) (k : GKeys)
    (dt cw ch pw ph : ℝ) (lv s : Nat)
    (hdt : 0 ≤ dt) (h0 : 0 ≤ st.fuel) (h1 : st.fuel ≤ 100) :
    (resetLevel lv cw ch s).fuel = 100 ∧
    0 ≤ (gliderUpdate st k dt cw ch pw ph).fuel ∧
    (gliderUpdate st k dt cw ch pw ph).fuel ≤ 100 := by
  have hc : 0 ≤ (gliderControls st k dt cw ch).fuel ∧
      (gliderControls st k dt cw ch).fuel ≤ 100 := by
    unfold gliderControls
    by_cases hr : k.r
    · simp [hr, resetLevel]
    · simp only [hr, if_false, Bool.false_eq_true]
      split_ifs <;>
        first
          | exact ⟨h0, h1⟩
          | exact ⟨le_max_left _ _, max_le (by norm_num) (min_le_left _ _)⟩
  have hpre : (gliderPreCollision st k dt cw ch pw ph).fuel =
      (gliderControls st k dt cw ch).fuel := by
    simp [gliderPreCollision, gliderIntegrate]
  refine ⟨by simp [resetLevel], ?_, ?_⟩ <;>
  · unfold gliderUpdate checkWells
    split_ifs
    · simp [resetLevel]
    · rw [hpre]
      first
        | exact hc.1
        | exact hc.2

/-- Witness for C10: the concrete state with fuel 50 and dt = 0 stays in
range, and a fresh reset has fuel 100. -/
theorem glider_fuel_in_range_witness :
    ((0 : ℝ) ≤ 0 ∧ 0 ≤ cexState.fuel ∧ cexState.fuel ≤ 100) ∧
    ((resetLevel 1 100 100 0).fuel = 100 ∧
      0 ≤ (gliderUpdate cexState keysNone 0 100 100 100 100).fuel ∧
      (gliderUpdate cexState keysNone 0 100 100 100 100).fuel ≤ 100) :=
  ⟨⟨le_refl 0, by norm_num [cexState], by norm_num [cexState]⟩,
    glider_fuel_in_range cexState keysNone 0 100 100 100 100 1 0 (le_refl 0)
      (by norm_num [cexState]) (by norm_num [cexState])⟩
